import Mathlib

/-!
# pnotify event handling core (fs/notify/pnotify/pnotify_fsnotify.c)

A shallow embedding of the event comparator, the merge callback, the event
delivery entry point and the group teardown of the pnotify backend, together
with the properties the specification states about them.

Conventions of the embedding:

* kernel pointers are natural numbers (addresses); two pointers are the same
  object exactly when the numbers are equal;
* the 32-bit event mask is a natural number and the C operator & is the
  bitwise and of natural numbers;
* an atomic_t counter is an integer, incremented and decremented by one;
* objects reached through pointers live in explicit stores that are passed
  in and returned.
-/

namespace Pnotify

/-! ## Data model -/

/-- Modelled from the spec: the tag of the data an event carries. The values
FSNOTIFY_EVENT_NONE, FSNOTIFY_EVENT_PATH and FSNOTIFY_EVENT_INODE are declared in
include/linux/fsnotify_backend.h, which is not among the sources; the spec
gives the variant tag INODE | PATH | NONE, and these are the three labels of
the switch in pnotify_event_compare. -/
inductive DataType where
  | FSNOTIFY_EVENT_NONE
  | FSNOTIFY_EVENT_PATH
  | FSNOTIFY_EVENT_INODE
  deriving DecidableEq, Repr

/-- The struct path of an event: the mount and the dentry, both pointers. -/
structure path where
  mnt : Nat
  dentry : Nat
  deriving DecidableEq, Repr

/-- The fields of struct fsnotify_event that this file reads or writes.
file_name is the byte buffer the pointer refers to (the end of the list
counts as the terminating NUL; an event without a name has name_len 0 and its
buffer is never read). name_len is a field of its own, as in the struct.
refcnt is the atomic reference count. -/
structure fsnotify_event where
  mask : Nat
  to_tell : Nat
  data_type : DataType
  path : path
  file_name : List Nat
  name_len : Nat
  refcnt : Int
  deriving DecidableEq, Repr

/-- Modelled from the spec: the queue-overflow flag of the mask bitset. The
constant is declared in include/linux/fsnotify_backend.h, which is not among
the sources; the value is that header's, 0x00004000. -/
def FS_Q_OVERFLOW : Nat := 0x00004000

/-- Modelled from the spec: the watch-removed/ignored flag of the mask
bitset. The constant is declared in include/linux/fsnotify_backend.h, which is
not among the sources; the value is that header's, 0x00008000. -/
def FS_IN_IGNORED : Nat := 0x00008000

/-- Modelled from the spec: the comparison of two name strings, the routine
strcmp of lib/string.c (not among the sources) on two NUL-terminated buffers:
walk both until the bytes differ (result -1 or 1) or a NUL is reached in both
(result 0). A list that ends stands for a buffer whose next byte is NUL. -/
def strcmp : List Nat → List Nat → Int
  | [], [] => 0
  | [], c2 :: _ => if c2 = 0 then 0 else -1
  | c1 :: _, [] => if c1 = 0 then 0 else 1
  | c1 :: cs, c2 :: ct =>
    if c1 ≠ c2 then (if c1 < c2 then -1 else 1)
    else if c1 = 0 then 0
    else strcmp cs ct

/-- The string a buffer holds: its bytes up to the first NUL. -/
def cstring (s : List Nat) : List Nat := s.takeWhile (fun c => c ≠ 0)

/-- The length of the string a buffer holds, the routine strlen of C. -/
def strlen (s : List Nat) : Nat := (cstring s).length

/-- The C test `old->mask & flag` of a mask against a flag. -/
def mask_test (mask flag : Nat) : Bool := (mask &&& flag) != 0

/-- Embedding of pnotify_event_compare: do two events contain the same
information. -/
def pnotify_event_compare (old new : fsnotify_event) : Bool :=
  if old.mask = new.mask ∧ old.to_tell = new.to_tell ∧
      old.data_type = new.data_type ∧ old.name_len = new.name_len then
    match old.data_type with
    | DataType.FSNOTIFY_EVENT_INODE =>
      if old.name_len = 0 ∨ strcmp old.file_name new.file_name = 0 then true
      else false
    | DataType.FSNOTIFY_EVENT_PATH =>
      if old.path.mnt = new.path.mnt ∧ old.path.dentry = new.path.dentry then true
      else false
    | DataType.FSNOTIFY_EVENT_NONE =>
      if mask_test old.mask FS_Q_OVERFLOW then true
      else if mask_test old.mask FS_IN_IGNORED then false
      else true
  else false

/-! ## The comparator as the specification words it -/

/-- The four fields the specification requires to match first. -/
def same_header (old new : fsnotify_event) : Prop :=
  old.mask = new.mask ∧ old.to_tell = new.to_tell ∧
    old.data_type = new.data_type ∧ old.name_len = new.name_len

/-- The per-type rule of the specification, section 4.1. -/
def per_type_rule (old new : fsnotify_event) : Prop :=
  match old.data_type with
  | DataType.FSNOTIFY_EVENT_INODE =>
    new.name_len = 0 ∨ cstring new.file_name = cstring old.file_name
  | DataType.FSNOTIFY_EVENT_PATH =>
    old.path.mnt = new.path.mnt ∧ old.path.dentry = new.path.dentry
  | DataType.FSNOTIFY_EVENT_NONE =>
    if mask_test old.mask FS_Q_OVERFLOW = true then True
    else if mask_test old.mask FS_IN_IGNORED = true then False
    else True

/-! ## Event store and the merge callback -/

/-- The event objects of the kernel, by address. -/
abbrev EventStore := Nat → fsnotify_event

/-- Modelled from the spec: acquire_event_reference, the framework routine
fsnotify_get_event of fs/notify/notification.c (not among the sources): one
atomic increment of the reference count of the event. -/
def fsnotify_get_event (events : EventStore) (event : Nat) : EventStore :=
  Function.update events event
    { events event with refcnt := (events event).refcnt + 1 }

/-- Embedding of pnotify_merge. The list is the pending-event list of the
group: the event pointers of its holders, oldest first, so list->prev is the
last element. On an empty list list->prev is the list head, which is no
holder: the model gives no result there. The result is the returned pointer
(none for NULL) and the event store after the call. The spin lock of the new
event is taken and released around the body and leaves no trace in a
sequential run. -/
def pnotify_merge (events : EventStore) (list : List Nat) (event : Nat) :
    Option (Option Nat × EventStore) :=
  match list.getLast? with
  | none => none
  | some last_event =>
    if pnotify_event_compare (events last_event) (events event) then
      some (some last_event, fsnotify_get_event events last_event)
    else
      some (none, events)

/-- A run of merges: each new event of the list is offered, in order, to
pnotify_merge against the same pending list; the handles returned are
collected. -/
def merge_all (events : EventStore) (list : List Nat) :
    List Nat → Option (List (Option Nat) × EventStore)
  | [] => some ([], events)
  | event :: rest =>
    match pnotify_merge events list event with
    | none => none
    | some (r, events1) =>
      match merge_all events1 list rest with
      | none => none
      | some (rs, events2) => some (r :: rs, events2)

/-! ## Event delivery -/

/-- The struct pnotify_inode_mark with its embedded fsnotify_mark: fsn_mark is
the address of the embedded mark (the pointer the framework hands in), mask,
group and task are fields of the embedded mark, wd is the watch descriptor. -/
structure pnotify_inode_mark where
  fsn_mark : Nat
  mask : Nat
  group : Nat
  task : Nat
  wd : Int
  deriving DecidableEq, Repr

/-- The struct pnotify_event_private_data: the owning group of the embedded
fsnotify_event_private_data, and the watch descriptor. -/
structure pnotify_event_private_data where
  group : Nat
  wd : Int
  deriving DecidableEq, Repr

/-- The calls pnotify_handle_event makes into the framework and the
allocator, in the order it makes them. -/
inductive Call where
  | fsnotify_add_notify_event (group event priv : Nat)
  | kmem_cache_free_event_priv (priv : Nat)
  | fsnotify_put_event (event : Nat)
  | fsnotify_destroy_mark (mark : Nat)
  deriving DecidableEq, Repr

/-- The kernel state event delivery works on: the event objects, the live
objects of pnotify_event_priv_cachep by address, the pending-event list of
each group, the events destroyed so far and the marks destroyed so far. -/
structure Kernel where
  events : EventStore
  privs : Nat → Option pnotify_event_private_data
  notification_list : Nat → List Nat
  destroyed_events : List Nat
  destroyed_marks : List Nat

/-- Modelled from the spec: the error code ENOMEM of
include/asm-generic/errno-base.h (not among the sources), value 12; the spec
calls the result OutOfMemory. -/
def ENOMEM : Int := 12

/-- Modelled from the spec: the one-shot flag of a watch mask, IN_ONESHOT of
include/linux/inotify.h (not among the sources), value 0x80000000. -/
def IN_ONESHOT : Nat := 0x80000000

/-- Embedding of pnotify_free_event_priv: the attachment goes back to its
cache and is no longer live. -/
def pnotify_free_event_priv (k : Kernel) (fsn_event_priv : Nat) : Kernel :=
  { k with privs := Function.update k.privs fsn_event_priv none }

/-- Modelled from the spec: release_event_reference, the framework routine
fsnotify_put_event (not among the sources): one atomic decrement of the
reference count; the event is destroyed when the count reaches zero. -/
def fsnotify_put_event (k : Kernel) (event : Nat) : Kernel :=
  let cnt := (k.events event).refcnt - 1
  let events1 := Function.update k.events event { k.events event with refcnt := cnt }
  if cnt = 0 then
    { k with events := events1, destroyed_events := k.destroyed_events ++ [event] }
  else
    { k with events := events1 }

/-- Modelled from the spec: destroy_watch, the framework routine
fsnotify_destroy_mark (not among the sources): the mark is recorded as
destroyed. -/
def fsnotify_destroy_mark (k : Kernel) (mark : Nat) : Kernel :=
  { k with destroyed_marks := k.destroyed_marks ++ [mark] }

/-- Embedding of pnotify_handle_event. What is not among the sources is a
parameter: the macros IS_ERR and PTR_ERR of include/linux/err.h, the pointer
event_priv that kmem_cache_alloc returned (0 for NULL), and add, the
framework routine fsnotify_add_notify_event called with pnotify_merge as its
merge callback, as a transformer of the kernel state that returns a pointer
(0 for NULL). The result is the return value, the kernel state, and the
calls made, in order. The vfsmount_mark argument and the local to_tell are
not used by the code and are left out, as is the pr_debug line. -/
def pnotify_handle_event
    (IS_ERR : Nat → Bool) (PTR_ERR : Nat → Int)
    (add : Kernel → Nat → Nat → Nat → Nat × Kernel)
    (event_priv : Nat)
    (k : Kernel) (group : Nat) (inode_mark : pnotify_inode_mark) (event : Nat) :
    Int × Kernel × List Call :=
  let wd := inode_mark.wd
  if event_priv = 0 then (-ENOMEM, k, [])
  else
    let priv : pnotify_event_private_data := { group := group, wd := wd }
    let k1 := { k with privs := Function.update k.privs event_priv (some priv) }
    let c1 := [Call.fsnotify_add_notify_event group event event_priv]
    match add k1 group event event_priv with
    | (added_event, k2) =>
      let r : Int × Kernel × List Call :=
        if added_event ≠ 0 then
          let k3 := pnotify_free_event_priv k2 event_priv
          let c2 := c1 ++ [Call.kmem_cache_free_event_priv event_priv]
          if IS_ERR added_event = false then
            (0, fsnotify_put_event k3 added_event, c2 ++ [Call.fsnotify_put_event added_event])
          else
            (PTR_ERR added_event, k3, c2)
        else (0, k2, c1)
      if mask_test inode_mark.mask IN_ONESHOT then
        (r.1, fsnotify_destroy_mark r.2.1 inode_mark.fsn_mark,
          r.2.2 ++ [Call.fsnotify_destroy_mark inode_mark.fsn_mark])
      else r

/-- Modelled from the spec: enqueue_event, the framework routine
fsnotify_add_notify_event (not among the sources) with pnotify_merge as merge
callback, in the shape the spec gives it: the generic queue append-or-merge
primitive. On a non-empty pending list the merge callback is asked; a handle
it returns is handed back. Otherwise the event is appended to the pending list
of the group, which takes one reference on it, and NULL is returned. -/
def fsnotify_add_notify_event (k : Kernel) (group event _priv : Nat) : Nat × Kernel :=
  match pnotify_merge k.events (k.notification_list group) event with
  | some (some tmp, events1) => (tmp, { k with events := events1 })
  | _ =>
    (0,
      { k with
        events := fsnotify_get_event k.events event,
        notification_list :=
          Function.update k.notification_list group (k.notification_list group ++ [event]) })

/-- An instance of the parameter IS_ERR, the macro of include/linux/err.h on
a 64-bit kernel: the pointer lies in the last MAX_ERRNO = 4095 values of an
unsigned long. -/
def IS_ERR_64 (ptr : Nat) : Bool := decide (2 ^ 64 - 4095 ≤ ptr)

/-- An instance of the parameter PTR_ERR, the macro of include/linux/err.h on
a 64-bit kernel: the pointer read as a signed long. -/
def PTR_ERR_64 (ptr : Nat) : Int := (ptr : Int) - 2 ^ 64

/-- An instance of the parameter add: an enqueue primitive that fails,
returning ERR_PTR(-ENOMEM) of a 64-bit kernel and leaving the state alone. -/
def add_fails (k : Kernel) (_group _event _priv : Nat) : Nat × Kernel := (2 ^ 64 - 12, k)

/-- How often a call occurs in a list of calls. -/
def calls_of (c : Call) (calls : List Call) : Nat := calls.count c

/-! ## Group teardown -/

/-- The struct user_struct fields teardown touches: the per-user count of
pnotify instances and the usage count that free_uid drops. -/
structure user_struct where
  pnotify_devs : Int
  usage : Int
  deriving DecidableEq, Repr

/-- The struct pnotify_wd_pid_struct: one entry of the PID/watch side list. -/
structure pnotify_wd_pid_struct where
  wd : Int
  pid : Nat
  deriving DecidableEq, Repr

/-- The pnotify_data of one struct fsnotify_group, with the address of the
group: the idr as its (id, pointer) entries in increasing id order, whether
idr_destroy has run, the user pointer, the state of wd_pid_lock and the side
list in list order. -/
structure fsnotify_group where
  addr : Nat
  idr : List (Int × Nat)
  idr_destroyed : Bool
  user : Nat
  wd_pid_lock : Bool
  wd_pid_list : List pnotify_wd_pid_struct
  deriving DecidableEq, Repr

/-- A line of the kernel log: the WARN of idr_callback with its three
arguments, or the KERN_WARNING printk that follows it. -/
inductive LogLine where
  | WARN (id : Int) (p : Nat) (data : Nat)
  | printk_warning (group task : Nat) (wd : Int)
  deriving DecidableEq, Repr

/-- The state teardown shares with the rest of the kernel: the static flag
warned of idr_callback, the kernel log, the marks and users by address, and
the record of every kmem_cache_free on pnotify_wd_pid_cachep together with
the state of the side-list lock of the group at the moment of the call. -/
structure Globals where
  warned : Bool
  klog : List LogLine
  marks : Nat → pnotify_inode_mark
  users : Nat → user_struct
  freed : List (pnotify_wd_pid_struct × Bool)

/-- Embedding of idr_callback: the return value and the state after. -/
def idr_callback (id : Int) (p : Nat) (data : Nat) (g : Globals) : Int × Globals :=
  if g.warned then (0, g)
  else
    let g1 := { g with warned := true }
    let g2 := { g1 with klog := g1.klog ++ [LogLine.WARN id p data] }
    let g3 :=
      if p ≠ 0 then
        { g2 with klog := g2.klog ++
            [LogLine.printk_warning (g2.marks p).group (g2.marks p).task (g2.marks p).wd] }
      else g2
    (0, g3)

/-- Modelled from the spec: the walk of the watch registry, the routine
idr_for_each of lib/idr.c (not among the sources): call fn on every entry in
id order; stop at the first call that returns non-zero and return that
value, otherwise return 0. The list holds the entries the walk visits, as
(id, pointer) pairs. -/
def idr_for_each (fn : Int → Nat → Nat → Globals → Int × Globals) (data : Nat) :
    List (Int × Nat) → Globals → Int × Globals
  | [], g => (0, g)
  | (id, p) :: rest, g =>
    match fn id p data g with
    | (error, g1) => if error ≠ 0 then (error, g1) else idr_for_each fn data rest g1

/-- The first loop of pnotify_free_group_priv, list_for_each_entry_safe over
the side list: list_del_init takes pos off the shared list and list_add_tail
puts it at the end of the local list. The result is the shared list and the
local list after the loop. The verbose debug message of the loop body is not
modelled. -/
def move_to_local : List pnotify_wd_pid_struct → List pnotify_wd_pid_struct →
    List pnotify_wd_pid_struct × List pnotify_wd_pid_struct
  | [], local_list => ([], local_list)
  | pos :: rest, local_list => move_to_local rest (local_list ++ [pos])

/-- The second loop of pnotify_free_group_priv over the local list: list_del
takes pos off the local list and kmem_cache_free releases it; the release is
recorded with the state of the side-list lock at that moment. The result is
the local list after the loop and the state. -/
def free_local (lock : Bool) : List pnotify_wd_pid_struct → Globals →
    List pnotify_wd_pid_struct × Globals
  | [], g => ([], g)
  | pos :: rest, g => free_local lock rest { g with freed := g.freed ++ [(pos, lock)] }

/-- The state of pnotify_free_group_priv at a program point: the shared
state, the group and the local list. -/
structure Teardown where
  g : Globals
  group : fsnotify_group
  local_list : List pnotify_wd_pid_struct

/-- Embedding of pnotify_free_group_priv from its entry up to, and not
including, the spin_unlock of the side-list lock. -/
def pnotify_free_group_priv_locked (g : Globals) (group : fsnotify_group) : Teardown :=
  let local_list : List pnotify_wd_pid_struct := []
  let g1 := (idr_for_each idr_callback group.addr group.idr g).2
  let group1 := { group with idr := [] }
  let group2 := { group1 with idr_destroyed := true }
  let u := g1.users group2.user
  let u1 := { u with pnotify_devs := u.pnotify_devs - 1 }
  let g2 := { g1 with users := Function.update g1.users group2.user u1 }
  let u2 := g2.users group2.user
  let u3 := { u2 with usage := u2.usage - 1 }
  let g3 := { g2 with users := Function.update g2.users group2.user u3 }
  let group3 := { group2 with wd_pid_lock := true }
  let moved := move_to_local group3.wd_pid_list local_list
  { g := g3, group := { group3 with wd_pid_list := moved.1 }, local_list := moved.2 }

/-- Embedding of pnotify_free_group_priv from the spin_unlock of the
side-list lock to its end. -/
def pnotify_free_group_priv_unlocked (t : Teardown) : Teardown :=
  let group1 := { t.group with wd_pid_lock := false }
  let r := free_local group1.wd_pid_lock t.local_list t.g
  { g := r.2, group := group1, local_list := r.1 }

/-- Embedding of pnotify_free_group_priv: the whole body. -/
def pnotify_free_group_priv (g : Globals) (group : fsnotify_group) : Teardown :=
  pnotify_free_group_priv_unlocked (pnotify_free_group_priv_locked g group)

/-- The number of leak warnings (WARN lines of idr_callback) in a log. -/
def leak_warnings (klog : List LogLine) : Nat :=
  (klog.filter (fun l => match l with
    | LogLine.WARN _ _ _ => true
    | LogLine.printk_warning _ _ _ => false)).length

/-- A sequence of group closes: pnotify_free_group_priv on each group in
turn, the shared state threaded through. The result is the shared state at
the end and each group as its close left it. -/
def close_groups : Globals → List fsnotify_group → Globals × List fsnotify_group
  | g, [] => (g, [])
  | g, group :: rest =>
    let t := pnotify_free_group_priv g group
    let r := close_groups t.g rest
    (r.1, t.group :: r.2)

/-! ## Well-formed names and concrete events -/

/-- The name length of an event is the length of its name string: the
framework sets name_len to strlen(file_name) when it creates an event with a
name, and to 0 when the event has none. -/
def name_len_ok (e : fsnotify_event) : Prop := e.name_len = strlen e.file_name

/-- A PATH event for the entry named "a" (FS_MODIFY on inode 5). -/
def ev_path_a : fsnotify_event :=
  { mask := 2, to_tell := 5, data_type := DataType.FSNOTIFY_EVENT_PATH,
    path := { mnt := 1, dentry := 7 }, file_name := [97], name_len := 1, refcnt := 1 }

/-- The same PATH event with the name "b". -/
def ev_path_b : fsnotify_event := { ev_path_a with file_name := [98] }

/-- The PATH event for "a" reached through another dentry of the same
inode. -/
def ev_path_other_dentry : fsnotify_event :=
  { ev_path_a with path := { mnt := 1, dentry := 8 } }

/-- A NONE event with neither control flag, named "a". -/
def ev_none_a : fsnotify_event :=
  { mask := 2, to_tell := 5, data_type := DataType.FSNOTIFY_EVENT_NONE,
    path := { mnt := 0, dentry := 0 }, file_name := [97], name_len := 1, refcnt := 1 }

/-- The same NONE event with the name "b". -/
def ev_none_b : fsnotify_event := { ev_none_a with file_name := [98] }

/-- The INODE event E1 of the scenario of the specification: FS_MODIFY on
inode 5 with the name "a.txt". -/
def ev_inode_a : fsnotify_event :=
  { mask := 2, to_tell := 5, data_type := DataType.FSNOTIFY_EVENT_INODE,
    path := { mnt := 0, dentry := 0 }, file_name := [97, 46, 116, 120, 116],
    name_len := 5, refcnt := 1 }

/-- The INODE event E3 of the scenario: as E1 with the name "b.txt". -/
def ev_inode_b : fsnotify_event := { ev_inode_a with file_name := [98, 46, 116, 120, 116] }

/-- A queue-overflow event: NONE type, mask FS_Q_OVERFLOW, no name. -/
def ev_overflow : fsnotify_event :=
  { mask := FS_Q_OVERFLOW, to_tell := 0, data_type := DataType.FSNOTIFY_EVENT_NONE,
    path := { mnt := 0, dentry := 0 }, file_name := [], name_len := 0, refcnt := 1 }

/-- An overflow-flagged NONE event with another to_tell. -/
def ev_overflow_other_inode : fsnotify_event := { ev_overflow with to_tell := 9 }

/-- An overflow-flagged NONE event with one more mask bit. -/
def ev_overflow_other_mask : fsnotify_event := { ev_overflow with mask := FS_Q_OVERFLOW ||| 2 }

/-- An overflow-flagged NONE event with another name length. -/
def ev_overflow_other_len : fsnotify_event :=
  { ev_overflow with file_name := [97], name_len := 1 }

/-- An ignored-flagged NONE event: mask FS_IN_IGNORED, no name. -/
def ev_ignored : fsnotify_event := { ev_overflow with mask := FS_IN_IGNORED }

/-- A NONE event whose mask carries both the ignored and the overflow flag. -/
def ev_ignored_overflow : fsnotify_event :=
  { ev_overflow with mask := FS_IN_IGNORED ||| FS_Q_OVERFLOW }

/-- Two event objects agree in every field but the reference count. -/
def same_fields (a b : fsnotify_event) : Prop :=
  { a with refcnt := 0 } = { b with refcnt := 0 }

/-- The event store of the scenario of the specification: E1 at address 1 (on
the queue, one reference), the identical E2 at address 2, E3 with another
name at address 3, and the overflow event everywhere else. -/
def store_scenario : EventStore := fun p =>
  if p = 1 then ev_inode_a
  else if p = 2 then ev_inode_a
  else if p = 3 then ev_inode_b
  else ev_overflow

/-- The kernel state of the scenario: the events of store_scenario, no live
attachment, group 10 with E1 as its only pending event, nothing destroyed. -/
def kernel_scenario : Kernel :=
  { events := store_scenario,
    privs := fun _ => none,
    notification_list := fun grp => if grp = 10 then [1] else [],
    destroyed_events := [],
    destroyed_marks := [] }

/-- A one-shot watch of group 10 with watch descriptor 3. -/
def mark_oneshot : pnotify_inode_mark :=
  { fsn_mark := 50, mask := IN_ONESHOT ||| 2, group := 10, task := 0, wd := 3 }

/-- The same watch without the one-shot flag. -/
def mark_plain : pnotify_inode_mark := { mark_oneshot with mask := 2 }

/-- The kernel state in which pnotify_handle_event calls the enqueue
primitive: the attachment at event_priv is live and populated with the group
and the watch descriptor. -/
def with_priv (k : Kernel) (event_priv group : Nat) (wd : Int) : Kernel :=
  { k with privs := Function.update k.privs event_priv (some { group := group, wd := wd }) }

/-- The calls of a list that destroy a mark. -/
def destroy_calls (calls : List Call) : List Call :=
  calls.filter (fun c => match c with
    | Call.fsnotify_destroy_mark _ => true
    | _ => false)

/-- A shared state at process start: the warning has not fired, the log is
empty, nothing has been freed. -/
def globals_fresh : Globals :=
  { warned := false,
    klog := [],
    marks := fun _ => mark_plain,
    users := fun _ => { pnotify_devs := 1, usage := 2 },
    freed := [] }

/-- A group closed with three watches still in its registry and two side-list
entries. -/
def group_leaky : fsnotify_group :=
  { addr := 10,
    idr := [(1, 50), (2, 51), (3, 52)],
    idr_destroyed := false,
    user := 1000,
    wd_pid_lock := false,
    wd_pid_list := [{ wd := 1, pid := 4242 }, { wd := 2, pid := 4243 }] }

/-- A group closed with an empty registry. -/
def group_clean : fsnotify_group := { group_leaky with addr := 11, idr := [] }

/-- The lines idr_callback writes for an entry when the warning has not fired
yet. -/
def leak_lines (g : Globals) (id : Int) (p data : Nat) : List LogLine :=
  LogLine.WARN id p data ::
    (if p ≠ 0 then [LogLine.printk_warning (g.marks p).group (g.marks p).task (g.marks p).wd]
     else [])

/-! ## Lemmas on strings -/

theorem strcmp_eq_zero_iff (s t : List Nat) :
    strcmp s t = 0 ↔ cstring s = cstring t := by
  induction s generalizing t with
  | nil =>
    cases t with
    | nil => simp [strcmp, cstring]
    | cons c2 ct =>
      by_cases h : c2 = 0
      · simp [strcmp, cstring, h]
      · simp [strcmp, cstring, h, List.takeWhile_cons]
  | cons c1 cs ih =>
    cases t with
    | nil =>
      by_cases h : c1 = 0
      · simp [strcmp, cstring, h]
      · simp [strcmp, cstring, h, List.takeWhile_cons]
    | cons c2 ct =>
      by_cases h : c1 = c2
      · subst h
        by_cases h0 : c1 = 0
        · simp [strcmp, cstring, h0]
        · have := ih ct
          simp only [cstring] at this
          simp [strcmp, cstring, h0, List.takeWhile_cons, this]
      · by_cases h1 : c1 = 0
        · subst h1
          have h2 : c2 ≠ 0 := fun e => h e.symm
          have h3 : 0 < c2 := Nat.pos_of_ne_zero h2
          simp [strcmp, cstring, h, h2, h3, List.takeWhile_cons]
        · by_cases h2 : c2 = 0
          · subst h2
            simp [strcmp, cstring, h, h1, List.takeWhile_cons]
          · by_cases h3 : c1 < c2
            · simp [strcmp, cstring, h, h1, h2, h3, List.takeWhile_cons]
            · simp [strcmp, cstring, h, h1, h2, h3, List.takeWhile_cons]

/-! ## The comparator -/

theorem compare_true_iff (old new : fsnotify_event) :
    pnotify_event_compare old new = true ↔ same_header old new ∧ per_type_rule old new := by
  unfold pnotify_event_compare same_header per_type_rule
  by_cases hh : old.mask = new.mask ∧ old.to_tell = new.to_tell ∧
      old.data_type = new.data_type ∧ old.name_len = new.name_len
  · rw [if_pos hh, and_iff_right hh]
    obtain ⟨_, _, _, hn⟩ := hh
    cases hdt : old.data_type with
    | FSNOTIFY_EVENT_NONE =>
      cases h1 : mask_test old.mask FS_Q_OVERFLOW <;>
        cases h2 : mask_test old.mask FS_IN_IGNORED <;> simp
    | FSNOTIFY_EVENT_PATH => simp
    | FSNOTIFY_EVENT_INODE =>
      have hs := strcmp_eq_zero_iff old.file_name new.file_name
      simp only [hs, hn]
      constructor
      · intro h
        split at h
        · rename_i h3
          rcases h3 with h3 | h3
          · exact Or.inl h3
          · exact Or.inr h3.symm
        · exact absurd h (by simp)
      · intro h
        rcases h with h | h
        · simp [h]
        · simp [h]
  · rw [if_neg hh]
    simp [hh]

theorem compare_false_of_not (old new : fsnotify_event)
    (h : ¬ (same_header old new ∧ per_type_rule old new)) :
    pnotify_event_compare old new = false := by
  cases hc : pnotify_event_compare old new with
  | false => rfl
  | true => exact absurd ((compare_true_iff old new).1 hc) h

theorem cstring_nil_of_strlen_zero (s : List Nat) (h : strlen s = 0) : cstring s = [] := by
  unfold strlen at h
  exact List.length_eq_zero.1 h

/-- Claim C1: pnotify_event_compare returns true exactly when mask, to_tell,
data_type and name length are all equal and the per-type rule holds (INODE:
the new event carries no name or its name string equals that of the old
event; PATH: identical mount and identical dentry; NONE: true with the
queue-overflow flag in the old mask, otherwise false with the ignored flag,
otherwise true). The result is a boolean, so in every other case it is
false. -/
theorem pnotify_event_compare_iff (old new : fsnotify_event) :
    pnotify_event_compare old new = true ↔ same_header old new ∧ per_type_rule old new :=
  compare_true_iff old new

/-- Claim C2, counterexample: two PATH events, and two NONE events with
neither control flag, that agree in mask, to_tell, data_type, path and name
length and differ only in the content of the name still compare as
equivalent, although the claim says a difference in name content alone makes
the result false for every data type. And two PATH events that agree in mask,
to_tell (the target, as claim C1 names it), data_type and name are not
equivalent when their dentries differ. -/
theorem compare_ignores_name_outside_inode :
    (ev_path_a.mask = ev_path_b.mask ∧ ev_path_a.to_tell = ev_path_b.to_tell ∧
      ev_path_a.data_type = ev_path_b.data_type ∧ ev_path_a.path = ev_path_b.path ∧
      name_len_ok ev_path_a ∧ name_len_ok ev_path_b ∧
      cstring ev_path_a.file_name ≠ cstring ev_path_b.file_name ∧
      ev_path_a.data_type = DataType.FSNOTIFY_EVENT_PATH ∧
      pnotify_event_compare ev_path_a ev_path_b = true) ∧
    (ev_none_a.mask = ev_none_b.mask ∧ ev_none_a.to_tell = ev_none_b.to_tell ∧
      ev_none_a.data_type = ev_none_b.data_type ∧ ev_none_a.path = ev_none_b.path ∧
      name_len_ok ev_none_a ∧ name_len_ok ev_none_b ∧
      cstring ev_none_a.file_name ≠ cstring ev_none_b.file_name ∧
      ev_none_a.data_type = DataType.FSNOTIFY_EVENT_NONE ∧
      mask_test ev_none_a.mask FS_Q_OVERFLOW = false ∧
      mask_test ev_none_a.mask FS_IN_IGNORED = false ∧
      pnotify_event_compare ev_none_a ev_none_b = true) ∧
    (ev_path_a.mask = ev_path_other_dentry.mask ∧
      ev_path_a.to_tell = ev_path_other_dentry.to_tell ∧
      ev_path_a.data_type = ev_path_other_dentry.data_type ∧
      ev_path_a.file_name = ev_path_other_dentry.file_name ∧
      ev_path_a.name_len = ev_path_other_dentry.name_len ∧
      pnotify_event_compare ev_path_a ev_path_other_dentry = false) := by
  unfold name_len_ok
  decide

/-- Claim C2, amended: events that agree in mask, to_tell, data_type and
name (content and length), and for PATH events in mount and dentry, compare
as equivalent unless they are NONE events whose mask has the ignored flag
without the overflow flag; a difference in mask, in to_tell, in data_type or
in name length makes the result false for every data type, a difference in
name content makes it false for INODE events, and a difference in mount or
dentry makes it false for PATH events. -/
theorem compare_merge_correctness (old new : fsnotify_event) :
    (old.mask = new.mask → old.to_tell = new.to_tell → old.data_type = new.data_type →
      cstring old.file_name = cstring new.file_name → name_len_ok old → name_len_ok new →
      (old.data_type = DataType.FSNOTIFY_EVENT_PATH → old.path = new.path) →
      ¬ (old.data_type = DataType.FSNOTIFY_EVENT_NONE ∧
          mask_test old.mask FS_IN_IGNORED = true ∧
          mask_test old.mask FS_Q_OVERFLOW = false) →
      pnotify_event_compare old new = true) ∧
    (old.mask ≠ new.mask → pnotify_event_compare old new = false) ∧
    (old.to_tell ≠ new.to_tell → pnotify_event_compare old new = false) ∧
    (old.data_type ≠ new.data_type → pnotify_event_compare old new = false) ∧
    (old.name_len ≠ new.name_len → pnotify_event_compare old new = false) ∧
    (old.data_type = DataType.FSNOTIFY_EVENT_INODE → name_len_ok old → name_len_ok new →
      cstring old.file_name ≠ cstring new.file_name →
      pnotify_event_compare old new = false) ∧
    (old.data_type = DataType.FSNOTIFY_EVENT_PATH → old.path ≠ new.path →
      pnotify_event_compare old new = false) := by
  refine ⟨?_, ?_, ?_, ?_, ?_, ?_, ?_⟩
  · intro hm ht hd hc ho hn hp hx
    rw [compare_true_iff]
    have hl : old.name_len = new.name_len := by
      unfold name_len_ok strlen at ho hn
      rw [ho, hn, hc]
    refine ⟨⟨hm, ht, hd, hl⟩, ?_⟩
    unfold per_type_rule
    cases hdt : old.data_type with
    | FSNOTIFY_EVENT_NONE =>
      cases h1 : mask_test old.mask FS_Q_OVERFLOW <;>
        cases h2 : mask_test old.mask FS_IN_IGNORED <;> simp
      exact hx ⟨hdt, h2, h1⟩
    | FSNOTIFY_EVENT_PATH =>
      have := hp hdt
      simp [this]
    | FSNOTIFY_EVENT_INODE =>
      exact Or.inr hc.symm
  · intro h
    exact compare_false_of_not old new (fun hh => h hh.1.1)
  · intro h
    exact compare_false_of_not old new (fun hh => h hh.1.2.1)
  · intro h
    exact compare_false_of_not old new (fun hh => h hh.1.2.2.1)
  · intro h
    exact compare_false_of_not old new (fun hh => h hh.1.2.2.2)
  · intro hdt ho hn hc
    apply compare_false_of_not
    rintro ⟨⟨_, _, _, hl⟩, hr⟩
    unfold per_type_rule at hr
    rw [hdt] at hr
    rcases hr with hr | hr
    · unfold name_len_ok at ho hn
      have h1 : cstring new.file_name = [] :=
        cstring_nil_of_strlen_zero _ (by rw [← hn, hr])
      have h2 : cstring old.file_name = [] :=
        cstring_nil_of_strlen_zero _ (by rw [← ho, hl, hr])
      exact hc (by rw [h1, h2])
    · exact hc hr.symm
  · intro hdt hp
    apply compare_false_of_not
    rintro ⟨_, hr⟩
    unfold per_type_rule at hr
    rw [hdt] at hr
    apply hp
    cases ho : old.path
    cases hn : new.path
    rw [ho, hn] at hr
    simp at hr
    simp [hr.1, hr.2]

/-- Witness for claim C2, amended: the scenario events E1 and E3 and a pair of
PATH events instantiate every part. -/
theorem compare_merge_correctness_witness :
    pnotify_event_compare ev_inode_a ev_inode_a = true ∧
    pnotify_event_compare ev_inode_a { ev_inode_a with mask := 4 } = false ∧
    pnotify_event_compare ev_inode_a { ev_inode_a with to_tell := 6 } = false ∧
    pnotify_event_compare ev_inode_a ev_path_a = false ∧
    pnotify_event_compare ev_inode_a { ev_inode_a with name_len := 4 } = false ∧
    pnotify_event_compare ev_inode_a ev_inode_b = false ∧
    pnotify_event_compare ev_path_a ev_path_other_dentry = false :=
  ⟨(compare_merge_correctness ev_inode_a ev_inode_a).1 rfl rfl rfl rfl
      (by unfold name_len_ok; decide) (by unfold name_len_ok; decide)
      (by decide) (by decide),
    (compare_merge_correctness ev_inode_a { ev_inode_a with mask := 4 }).2.1 (by decide),
    (compare_merge_correctness ev_inode_a { ev_inode_a with to_tell := 6 }).2.2.1 (by decide),
    (compare_merge_correctness ev_inode_a ev_path_a).2.2.2.1 (by decide),
    (compare_merge_correctness ev_inode_a { ev_inode_a with name_len := 4 }).2.2.2.2.1
      (by decide),
    (compare_merge_correctness ev_inode_a ev_inode_b).2.2.2.2.2.1 rfl
      (by unfold name_len_ok; decide) (by unfold name_len_ok; decide) (by decide),
    (compare_merge_correctness ev_path_a ev_path_other_dentry).2.2.2.2.2.2 rfl (by decide)⟩

/-- Claim C3, counterexample: NONE events whose masks all carry the
queue-overflow flag are not equivalent when they differ in to_tell, in the
remaining mask bits, or in name length. -/
theorem overflow_events_not_always_equivalent :
    ev_overflow.data_type = DataType.FSNOTIFY_EVENT_NONE ∧
    ev_overflow_other_inode.data_type = DataType.FSNOTIFY_EVENT_NONE ∧
    ev_overflow_other_mask.data_type = DataType.FSNOTIFY_EVENT_NONE ∧
    ev_overflow_other_len.data_type = DataType.FSNOTIFY_EVENT_NONE ∧
    mask_test ev_overflow.mask FS_Q_OVERFLOW = true ∧
    mask_test ev_overflow_other_inode.mask FS_Q_OVERFLOW = true ∧
    mask_test ev_overflow_other_mask.mask FS_Q_OVERFLOW = true ∧
    mask_test ev_overflow_other_len.mask FS_Q_OVERFLOW = true ∧
    pnotify_event_compare ev_overflow ev_overflow_other_inode = false ∧
    pnotify_event_compare ev_overflow ev_overflow_other_mask = false ∧
    pnotify_event_compare ev_overflow ev_overflow_other_len = false := by
  decide

/-- Claim C3, amended: two NONE events whose masks both carry the
queue-overflow flag and that agree in mask, to_tell and name length are
equivalent, whatever the remaining fields are (the ignored flag, the name
bytes, the path, the reference counts). -/
theorem overflow_events_equivalent (old new : fsnotify_event)
    (hold : old.data_type = DataType.FSNOTIFY_EVENT_NONE)
    (hnew : new.data_type = DataType.FSNOTIFY_EVENT_NONE)
    (hoo : mask_test old.mask FS_Q_OVERFLOW = true)
    (_hon : mask_test new.mask FS_Q_OVERFLOW = true)
    (hm : old.mask = new.mask) (ht : old.to_tell = new.to_tell)
    (hl : old.name_len = new.name_len) :
    pnotify_event_compare old new = true := by
  rw [compare_true_iff]
  refine ⟨⟨hm, ht, by rw [hold, hnew], hl⟩, ?_⟩
  unfold per_type_rule
  rw [hold]
  simp [hoo]

/-- Witness for claim C3, amended: the overflow event against itself, and
against a copy with the ignored flag set on both sides and other name bytes
and path. -/
theorem overflow_events_equivalent_witness :
    pnotify_event_compare ev_overflow ev_overflow = true ∧
    pnotify_event_compare ev_ignored_overflow
      { ev_ignored_overflow with file_name := [98], path := { mnt := 3, dentry := 4 } } = true :=
  ⟨overflow_events_equivalent ev_overflow ev_overflow rfl rfl (by decide) (by decide) rfl rfl rfl,
    overflow_events_equivalent ev_ignored_overflow
      { ev_ignored_overflow with file_name := [98], path := { mnt := 3, dentry := 4 } }
      rfl rfl (by decide) (by decide) rfl rfl rfl⟩

/-- Claim C4, counterexample: a NONE event whose mask carries the ignored
flag together with the overflow flag is equivalent to an identical event: the
overflow test comes first. -/
theorem ignored_events_equivalent_with_overflow :
    ev_ignored_overflow.data_type = DataType.FSNOTIFY_EVENT_NONE ∧
    mask_test ev_ignored_overflow.mask FS_IN_IGNORED = true ∧
    pnotify_event_compare ev_ignored_overflow ev_ignored_overflow = true := by
  decide

/-- Claim C4, amended: two NONE events whose masks both carry the ignored
flag, the old one without the queue-overflow flag, are never equivalent, even
when they are identical in every field. -/
theorem ignored_events_never_equivalent (old new : fsnotify_event)
    (hold : old.data_type = DataType.FSNOTIFY_EVENT_NONE)
    (_hnew : new.data_type = DataType.FSNOTIFY_EVENT_NONE)
    (hio : mask_test old.mask FS_IN_IGNORED = true)
    (_hin : mask_test new.mask FS_IN_IGNORED = true)
    (hoo : mask_test old.mask FS_Q_OVERFLOW = false) :
    pnotify_event_compare old new = false := by
  apply compare_false_of_not
  rintro ⟨_, hr⟩
  unfold per_type_rule at hr
  rw [hold] at hr
  simp [hoo, hio] at hr

/-- Witness for claim C4, amended: the ignored event against itself. -/
theorem ignored_events_never_equivalent_witness :
    pnotify_event_compare ev_ignored ev_ignored = false :=
  ignored_events_never_equivalent ev_ignored ev_ignored rfl rfl (by decide) (by decide)
    (by decide)

/-! ## The merge callback -/

theorem compare_congr (a a1 b b1 : fsnotify_event) (ha : same_fields a1 a)
    (hb : same_fields b1 b) :
    pnotify_event_compare a1 b1 = pnotify_event_compare a b := by
  unfold same_fields at ha hb
  cases a; cases a1; cases b; cases b1
  simp only [fsnotify_event.mk.injEq] at ha hb
  obtain ⟨h1, h2, h3, h4, h5, h6, _⟩ := ha
  obtain ⟨g1, g2, g3, g4, g5, g6, _⟩ := hb
  subst h1 h2 h3 h4 h5 h6 g1 g2 g3 g4 g5 g6
  rfl

theorem same_fields_refl (a : fsnotify_event) : same_fields a a := rfl

theorem same_fields_trans (a b c : fsnotify_event) (h1 : same_fields a b)
    (h2 : same_fields b c) : same_fields a c := by
  unfold same_fields at *
  rw [h1, h2]

theorem get_event_at (events : EventStore) (t : Nat) :
    (fsnotify_get_event events t t).refcnt = (events t).refcnt + 1 := by
  simp [fsnotify_get_event]

theorem get_event_other (events : EventStore) (t p : Nat) (h : p ≠ t) :
    fsnotify_get_event events t p = events p := by
  simp [fsnotify_get_event, Function.update_noteq h]

theorem get_event_same_fields (events : EventStore) (t p : Nat) :
    same_fields (fsnotify_get_event events t p) (events p) := by
  by_cases h : p = t
  · subst h
    simp [fsnotify_get_event, same_fields]
  · rw [get_event_other events t p h]
    exact same_fields_refl _

theorem merge_eq (events : EventStore) (list : List Nat) (event tail : Nat)
    (h : list.getLast? = some tail) :
    pnotify_merge events list event =
      if pnotify_event_compare (events tail) (events event) then
        some (some tail, fsnotify_get_event events tail)
      else some (none, events) := by
  simp [pnotify_merge, h]

theorem merge_all_equivalent (list : List Nat) (tail : Nat)
    (h : list.getLast? = some tail) (news : List Nat) :
    ∀ events : EventStore,
      (∀ n ∈ news, pnotify_event_compare (events tail) (events n) = true) →
      ∃ events1, merge_all events list news = some (news.map (fun _ => some tail), events1) ∧
        (events1 tail).refcnt = (events tail).refcnt + news.length ∧
        (∀ p, p ≠ tail → events1 p = events p) ∧
        (∀ p, same_fields (events1 p) (events p)) := by
  induction news with
  | nil =>
    intro events _
    exact ⟨events, by simp [merge_all], by simp, fun _ _ => rfl, fun _ => same_fields_refl _⟩
  | cons n rest ih =>
    intro events hall
    have hn : pnotify_event_compare (events tail) (events n) = true :=
      hall n (List.mem_cons_self _ _)
    have hrest : ∀ m ∈ rest, pnotify_event_compare
        (fsnotify_get_event events tail tail) (fsnotify_get_event events tail m) = true := by
      intro m hm
      rw [compare_congr (events tail) _ (events m) _ (get_event_same_fields events tail tail)
        (get_event_same_fields events tail m)]
      exact hall m (List.mem_cons_of_mem _ hm)
    obtain ⟨events1, h1, h2, h3, h4⟩ := ih (fsnotify_get_event events tail) hrest
    refine ⟨events1, ?_, ?_, ?_, ?_⟩
    · simp [merge_all, merge_eq events list n tail h, hn, h1]
    · rw [h2, get_event_at]
      simp only [List.length_cons]
      push_cast
      ring
    · intro p hp
      rw [h3 p hp, get_event_other events tail p hp]
    · intro p
      exact same_fields_trans _ _ _ (h4 p) (get_event_same_fields events tail p)

/-- Claim C5, counterexample: when the new event is the tail event itself (the
shared overflow event offered again while it is the last entry of the pending
list) the merge succeeds and the reference count of the new event goes from 1
to 2, although the claim says the reference count of the new event is
unchanged. -/
theorem merge_bumps_new_event_that_is_tail :
    (fun _ => ev_overflow : EventStore) 7 = ev_overflow ∧ ev_overflow.refcnt = 1 ∧
    (pnotify_merge (fun _ => ev_overflow) [7] 7).map (fun r => (r.1, (r.2 7).refcnt)) =
      some (some 7, 2) := by
  refine ⟨rfl, rfl, ?_⟩
  simp [pnotify_merge, fsnotify_get_event, pnotify_event_compare, ev_overflow, mask_test,
    FS_Q_OVERFLOW]

/-- Claim C5, amended: on a non-empty pending list pnotify_merge returns a
result that depends on the last entry only. If pnotify_event_compare(tail,
new) is true it returns the handle of the tail and the reference count of the
tail is exactly one higher; otherwise it returns nothing and no event object
changes. In both cases every event keeps all its fields other than the
reference count and every event other than the tail, the new event included
when it is not the tail itself, keeps its reference count; the list is only
read. N consecutive merges of equivalent events raise the count of the tail
by N, from 1 to N+1. -/
theorem pnotify_merge_spec (events : EventStore) (list : List Nat) (event tail : Nat)
    (h : list.getLast? = some tail) :
    (∃ r events1, pnotify_merge events list event = some (r, events1) ∧
      (pnotify_event_compare (events tail) (events event) = true →
        r = some tail ∧ (events1 tail).refcnt = (events tail).refcnt + 1) ∧
      (pnotify_event_compare (events tail) (events event) = false →
        r = none ∧ events1 = events) ∧
      (∀ p, same_fields (events1 p) (events p)) ∧
      (∀ p, p ≠ tail → events1 p = events p) ∧
      (event ≠ tail → events1 event = events event)) ∧
    (∀ list2 : List Nat, list2.getLast? = some tail →
      pnotify_merge events list2 event = pnotify_merge events list event) ∧
    (∀ news : List Nat,
      (∀ n ∈ news, pnotify_event_compare (events tail) (events n) = true) →
      (events tail).refcnt = 1 →
      ∃ events1, merge_all events list news = some (news.map (fun _ => some tail), events1) ∧
        (events1 tail).refcnt = news.length + 1 ∧
        (∀ p, p ≠ tail → events1 p = events p) ∧
        (∀ p, same_fields (events1 p) (events p))) := by
  refine ⟨?_, ?_, ?_⟩
  · cases hc : pnotify_event_compare (events tail) (events event) with
    | true =>
      refine ⟨some tail, fsnotify_get_event events tail, ?_, ?_, ?_, ?_, ?_, ?_⟩
      · simp [merge_eq events list event tail h, hc]
      · intro _
        exact ⟨rfl, get_event_at events tail⟩
      · intro hf
        exact absurd hf (by simp)
      · exact fun p => get_event_same_fields events tail p
      · exact fun p hp => get_event_other events tail p hp
      · exact fun hp => get_event_other events tail event hp
    | false =>
      refine ⟨none, events, ?_, ?_, ?_, ?_, ?_, ?_⟩
      · simp [merge_eq events list event tail h, hc]
      · intro hf
        exact absurd hf (by simp)
      · intro _
        exact ⟨rfl, rfl⟩
      · exact fun p => same_fields_refl _
      · exact fun _ _ => rfl
      · exact fun _ => rfl
  · intro list2 h2
    rw [merge_eq events list2 event tail h2, merge_eq events list event tail h]
  · intro news hall hone
    obtain ⟨events1, h1, h2, h3, h4⟩ := merge_all_equivalent list tail h news events hall
    refine ⟨events1, h1, ?_, h3, h4⟩
    rw [h2, hone]
    ring

/-- Witness for claim C5, amended, on the scenario of the specification: E2,
identical to the tail E1, merges, E1 goes from one reference to two and E2 is
untouched; E3 does not merge and nothing changes; three merges of E2 leave E1
with four references. -/
theorem pnotify_merge_spec_witness :
    (∃ events1, pnotify_merge store_scenario [1] 2 = some (some 1, events1) ∧
      (events1 1).refcnt = 2 ∧ events1 2 = store_scenario 2) ∧
    pnotify_merge store_scenario [1] 3 = some (none, store_scenario) ∧
    pnotify_merge store_scenario [3, 1] 2 = pnotify_merge store_scenario [1] 2 ∧
    (∃ events1, merge_all store_scenario [1] [2, 2, 2] =
        some ([some 1, some 1, some 1], events1) ∧ (events1 1).refcnt = 4) := by
  have hc : pnotify_event_compare (store_scenario 1) (store_scenario 2) = true := by decide
  have hd : pnotify_event_compare (store_scenario 1) (store_scenario 3) = false := by decide
  refine ⟨?_, ?_, ?_, ?_⟩
  · obtain ⟨r, events1, h1, h2, _, _, _, h6⟩ :=
      (pnotify_merge_spec store_scenario [1] 2 1 rfl).1
    obtain ⟨hr, hcnt⟩ := h2 hc
    subst hr
    exact ⟨events1, h1, by rw [hcnt]; rfl, h6 (by decide)⟩
  · obtain ⟨r, events1, h1, _, h3, _, _, _⟩ :=
      (pnotify_merge_spec store_scenario [1] 3 1 rfl).1
    obtain ⟨hr, he⟩ := h3 hd
    subst hr he
    exact h1
  · exact (pnotify_merge_spec store_scenario [1] 2 1 rfl).2.1 [3, 1] rfl
  · obtain ⟨events1, h1, h2, _, _⟩ :=
      (pnotify_merge_spec store_scenario [1] 2 1 rfl).2.2 [2, 2, 2]
        (by intro n hn; simp at hn; subst hn; exact hc) rfl
    exact ⟨events1, h1, h2⟩

/-! ## Event delivery -/

/-- Claim C6: when the allocation of the private data attachment fails
(kmem_cache_alloc returns NULL), pnotify_handle_event returns -ENOMEM, the
kernel state is exactly the one it was called in (no reference count changed,
no attachment live that was not before, no mark destroyed) and it has made no
call at all: not the enqueue primitive, and not the destruction of the watch,
also when the watch is one-shot. The enqueue primitive plays no part in the
result. -/
theorem handle_event_alloc_failure
    (IS_ERR : Nat → Bool) (PTR_ERR : Nat → Int)
    (add add2 : Kernel → Nat → Nat → Nat → Nat × Kernel)
    (k : Kernel) (group : Nat) (inode_mark : pnotify_inode_mark) (event : Nat) :
    (pnotify_handle_event IS_ERR PTR_ERR add 0 k group inode_mark event).1 = -ENOMEM ∧
    ENOMEM = 12 ∧
    (pnotify_handle_event IS_ERR PTR_ERR add 0 k group inode_mark event).2.1 = k ∧
    (pnotify_handle_event IS_ERR PTR_ERR add 0 k group inode_mark event).2.2 = [] ∧
    pnotify_handle_event IS_ERR PTR_ERR add 0 k group inode_mark event =
      pnotify_handle_event IS_ERR PTR_ERR add2 0 k group inode_mark event :=
  ⟨rfl, rfl, rfl, rfl, rfl⟩

theorem handle_event_eq (IS_ERR : Nat → Bool) (PTR_ERR : Nat → Int)
    (add : Kernel → Nat → Nat → Nat → Nat × Kernel)
    (event_priv : Nat) (k : Kernel) (group : Nat) (inode_mark : pnotify_inode_mark)
    (event : Nat) (hp : event_priv ≠ 0) :
    pnotify_handle_event IS_ERR PTR_ERR add event_priv k group inode_mark event =
      let a := add (with_priv k event_priv group inode_mark.wd) group event event_priv
      let c1 := [Call.fsnotify_add_notify_event group event event_priv]
      let r : Int × Kernel × List Call :=
        if a.1 ≠ 0 then
          if IS_ERR a.1 = false then
            (0, fsnotify_put_event (pnotify_free_event_priv a.2 event_priv) a.1,
              c1 ++ [Call.kmem_cache_free_event_priv event_priv] ++ [Call.fsnotify_put_event a.1])
          else
            (PTR_ERR a.1, pnotify_free_event_priv a.2 event_priv,
              c1 ++ [Call.kmem_cache_free_event_priv event_priv])
        else (0, a.2, c1)
      if mask_test inode_mark.mask IN_ONESHOT then
        (r.1, fsnotify_destroy_mark r.2.1 inode_mark.fsn_mark,
          r.2.2 ++ [Call.fsnotify_destroy_mark inode_mark.fsn_mark])
      else r := by
  unfold pnotify_handle_event
  rw [if_neg hp]
  rfl

theorem put_event_privs (k : Kernel) (p : Nat) : (fsnotify_put_event k p).privs = k.privs := by
  unfold fsnotify_put_event
  simp only
  split <;> rfl

theorem put_event_refcnt (k : Kernel) (p : Nat) :
    ((fsnotify_put_event k p).events p).refcnt = (k.events p).refcnt - 1 := by
  unfold fsnotify_put_event
  simp only
  split <;> simp

theorem put_event_other (k : Kernel) (p q : Nat) (h : q ≠ p) :
    (fsnotify_put_event k p).events q = k.events q := by
  unfold fsnotify_put_event
  simp only
  split <;> simp [Function.update_noteq h]

theorem put_event_destroyed_marks (k : Kernel) (p : Nat) :
    (fsnotify_put_event k p).destroyed_marks = k.destroyed_marks := by
  unfold fsnotify_put_event
  simp only
  split <;> rfl

theorem merge_handle_store (events events1 : EventStore) (list : List Nat) (event t : Nat)
    (h : pnotify_merge events list event = some (some t, events1)) :
    events1 = fsnotify_get_event events t := by
  unfold pnotify_merge at h
  split at h
  · exact absurd h (by simp)
  · split at h
    · simp only [Option.some.injEq, Prod.mk.injEq] at h
      obtain ⟨h1, h2⟩ := h
      subst h1
      exact h2.symm
    · simp at h

theorem add_notify_event_merged (k : Kernel) (group event priv : Nat)
    (h : (fsnotify_add_notify_event k group event priv).1 ≠ 0) :
    (fsnotify_add_notify_event k group event priv).2 =
      { k with events :=
          fsnotify_get_event k.events (fsnotify_add_notify_event k group event priv).1 } := by
  unfold fsnotify_add_notify_event at h ⊢
  split
  · rename_i tmp events1 hm
    simp only
    rw [merge_handle_store _ _ _ _ _ hm]
  · rename_i hne
    split at h
    · rename_i tmp events1 hm
      exact absurd hm (hne tmp events1)
    · exact absurd rfl h

theorem handle_event_core (IS_ERR : Nat → Bool) (PTR_ERR : Nat → Int)
    (add : Kernel → Nat → Nat → Nat → Nat × Kernel)
    (event_priv : Nat) (k : Kernel) (group : Nat) (inode_mark : pnotify_inode_mark)
    (event : Nat) (hp : event_priv ≠ 0) (p : Nat) (k2 : Kernel)
    (ha : add (with_priv k event_priv group inode_mark.wd) group event event_priv = (p, k2)) :
    pnotify_handle_event IS_ERR PTR_ERR add event_priv k group inode_mark event =
      (if mask_test inode_mark.mask IN_ONESHOT = true then
        ((if p ≠ 0 then if IS_ERR p = false then 0 else PTR_ERR p else 0),
          fsnotify_destroy_mark
            (if p ≠ 0 then
              if IS_ERR p = false then fsnotify_put_event (pnotify_free_event_priv k2 event_priv) p
              else pnotify_free_event_priv k2 event_priv
            else k2) inode_mark.fsn_mark,
          (if p ≠ 0 then
            if IS_ERR p = false then
              [Call.fsnotify_add_notify_event group event event_priv,
                Call.kmem_cache_free_event_priv event_priv, Call.fsnotify_put_event p]
            else
              [Call.fsnotify_add_notify_event group event event_priv,
                Call.kmem_cache_free_event_priv event_priv]
          else [Call.fsnotify_add_notify_event group event event_priv]) ++
            [Call.fsnotify_destroy_mark inode_mark.fsn_mark])
      else
        ((if p ≠ 0 then if IS_ERR p = false then 0 else PTR_ERR p else 0),
          (if p ≠ 0 then
            if IS_ERR p = false then fsnotify_put_event (pnotify_free_event_priv k2 event_priv) p
            else pnotify_free_event_priv k2 event_priv
          else k2),
          (if p ≠ 0 then
            if IS_ERR p = false then
              [Call.fsnotify_add_notify_event group event event_priv,
                Call.kmem_cache_free_event_priv event_priv, Call.fsnotify_put_event p]
            else
              [Call.fsnotify_add_notify_event group event event_priv,
                Call.kmem_cache_free_event_priv event_priv]
          else [Call.fsnotify_add_notify_event group event event_priv]))) := by
  rw [handle_event_eq IS_ERR PTR_ERR add event_priv k group inode_mark event hp]
  simp only [ha]
  by_cases h0 : p = 0
  · by_cases ho : mask_test inode_mark.mask IN_ONESHOT = true <;> simp [h0, ho]
  · by_cases he : IS_ERR p = false
    · by_cases ho : mask_test inode_mark.mask IN_ONESHOT = true <;> simp [h0, he, ho]
    · by_cases ho : mask_test inode_mark.mask IN_ONESHOT = true <;> simp [h0, he, ho]

theorem handle_event_outcomes_aux
    (IS_ERR : Nat → Bool) (PTR_ERR : Nat → Int)
    (add : Kernel → Nat → Nat → Nat → Nat × Kernel)
    (event_priv : Nat) (k : Kernel) (group : Nat) (inode_mark : pnotify_inode_mark)
    (event : Nat) (hp : event_priv ≠ 0) (p : Nat) (k2 : Kernel)
    (ha : add (with_priv k event_priv group inode_mark.wd) group event event_priv = (p, k2))
    (r : Int × Kernel × List Call)
    (hr : r = pnotify_handle_event IS_ERR PTR_ERR add event_priv k group inode_mark event) :
    (p = 0 →
      r.1 = 0 ∧
      calls_of (Call.kmem_cache_free_event_priv event_priv) r.2.2 = 0 ∧
      (∀ e, calls_of (Call.fsnotify_put_event e) r.2.2 = 0) ∧
      r.2.1.privs = k2.privs ∧ r.2.1.events = k2.events ∧
      r.2.1.destroyed_events = k2.destroyed_events) ∧
    (p ≠ 0 → IS_ERR p = false →
      r.1 = 0 ∧
      calls_of (Call.kmem_cache_free_event_priv event_priv) r.2.2 = 1 ∧
      r.2.1.privs event_priv = none ∧
      calls_of (Call.fsnotify_put_event p) r.2.2 = 1 ∧
      (∀ e, e ≠ p → calls_of (Call.fsnotify_put_event e) r.2.2 = 0) ∧
      (r.2.1.events p).refcnt = (k2.events p).refcnt - 1 ∧
      (∀ e, e ≠ p → r.2.1.events e = k2.events e)) ∧
    (p ≠ 0 → IS_ERR p = true →
      r.1 = PTR_ERR p ∧
      calls_of (Call.kmem_cache_free_event_priv event_priv) r.2.2 = 1 ∧
      r.2.1.privs event_priv = none ∧
      (∀ e, calls_of (Call.fsnotify_put_event e) r.2.2 = 0) ∧
      r.2.1.events = k2.events ∧
      r.2.1.destroyed_events = k2.destroyed_events) := by
  rw [handle_event_core IS_ERR PTR_ERR add event_priv k group inode_mark event hp p k2 ha] at hr
  subst hr
  refine ⟨?_, ?_, ?_⟩
  · intro h0
    by_cases ho : mask_test inode_mark.mask IN_ONESHOT = true
    · simp [h0, ho, calls_of, fsnotify_destroy_mark]
    · simp [h0, ho, calls_of]
  · intro h0 he
    by_cases ho : mask_test inode_mark.mask IN_ONESHOT = true
    · simp only [h0, he, ho, ne_eq, not_false_eq_true, if_true]
      refine ⟨trivial, by simp [calls_of], ?_, by simp [calls_of], ?_, ?_, ?_⟩
      · simp [fsnotify_destroy_mark, put_event_privs, pnotify_free_event_priv]
      · intro e hne
        simp [calls_of, hne]
      · simp [fsnotify_destroy_mark, put_event_refcnt, pnotify_free_event_priv]
      · intro e hne
        simp [fsnotify_destroy_mark, put_event_other _ _ _ hne, pnotify_free_event_priv]
    · simp only [h0, he, ho, ne_eq, not_false_eq_true, if_true]
      refine ⟨by simp, by simp [calls_of], ?_, by simp [calls_of], ?_, ?_, ?_⟩
      · simp [put_event_privs, pnotify_free_event_priv]
      · intro e hne
        simp [calls_of, hne]
      · simp [put_event_refcnt, pnotify_free_event_priv]
      · intro e hne
        simp [put_event_other _ _ _ hne, pnotify_free_event_priv]
  · intro h0 he
    by_cases ho : mask_test inode_mark.mask IN_ONESHOT = true
    · simp [h0, he, ho, calls_of, fsnotify_destroy_mark, pnotify_free_event_priv]
    · simp [h0, he, ho, calls_of, pnotify_free_event_priv]

theorem handle_event_merge_net
    (IS_ERR : Nat → Bool) (PTR_ERR : Nat → Int)
    (event_priv : Nat) (k : Kernel) (group : Nat) (inode_mark : pnotify_inode_mark)
    (event : Nat) (hp : event_priv ≠ 0) (p : Nat) (k2 : Kernel)
    (ha : fsnotify_add_notify_event (with_priv k event_priv group inode_mark.wd) group event
      event_priv = (p, k2))
    (h0 : p ≠ 0) (he : IS_ERR p = false) :
    ((pnotify_handle_event IS_ERR PTR_ERR fsnotify_add_notify_event event_priv k group
      inode_mark event).2.1.events p).refcnt = (k.events p).refcnt := by
  have hm := add_notify_event_merged (with_priv k event_priv group inode_mark.wd) group event
    event_priv (by rw [ha]; exact h0)
  rw [ha] at hm
  simp only at hm
  rw [handle_event_core IS_ERR PTR_ERR fsnotify_add_notify_event event_priv k group inode_mark
    event hp p k2 ha]
  by_cases ho : mask_test inode_mark.mask IN_ONESHOT = true
  · simp only [h0, he, ho, ne_eq, not_false_eq_true, if_true]
    simp only [fsnotify_destroy_mark, put_event_refcnt, pnotify_free_event_priv]
    rw [hm]
    simp [put_event_refcnt, get_event_at, with_priv]
  · simp only [h0, he, ho, ne_eq, not_false_eq_true, if_true]
    simp only [put_event_refcnt, pnotify_free_event_priv]
    rw [hm]
    simp [put_event_refcnt, get_event_at, with_priv]

/-- Claim C7: when the allocation succeeds the outcome of
pnotify_handle_event is decided by what the enqueue primitive returns. NULL
(newly queued): the attachment is not released and stays as the primitive
left it, no reference is released, the result is 0. An event handle (merged):
the attachment is released exactly once and is no longer live, exactly one
reference is released, on that handle and on no other event, the result is
0. An error pointer: the attachment is released exactly once, no reference is
released, and the error code of the pointer is the result. With the enqueue
primitive that merges through pnotify_merge, a merge leaves the reference
count of the tail as it was before the call. -/
theorem handle_event_outcomes
    (IS_ERR : Nat → Bool) (PTR_ERR : Nat → Int)
    (add : Kernel → Nat → Nat → Nat → Nat × Kernel)
    (event_priv : Nat) (k : Kernel) (group : Nat) (inode_mark : pnotify_inode_mark)
    (event : Nat) (hp : event_priv ≠ 0) :
    let a := add (with_priv k event_priv group inode_mark.wd) group event event_priv
    let r := pnotify_handle_event IS_ERR PTR_ERR add event_priv k group inode_mark event
    let m := fsnotify_add_notify_event (with_priv k event_priv group inode_mark.wd)
      group event event_priv
    let rm := pnotify_handle_event IS_ERR PTR_ERR fsnotify_add_notify_event event_priv k group
      inode_mark event
    (a.1 = 0 →
      r.1 = 0 ∧
      calls_of (Call.kmem_cache_free_event_priv event_priv) r.2.2 = 0 ∧
      (∀ e, calls_of (Call.fsnotify_put_event e) r.2.2 = 0) ∧
      r.2.1.privs = a.2.privs ∧ r.2.1.events = a.2.events ∧
      r.2.1.destroyed_events = a.2.destroyed_events) ∧
    (a.1 ≠ 0 → IS_ERR a.1 = false →
      r.1 = 0 ∧
      calls_of (Call.kmem_cache_free_event_priv event_priv) r.2.2 = 1 ∧
      r.2.1.privs event_priv = none ∧
      calls_of (Call.fsnotify_put_event a.1) r.2.2 = 1 ∧
      (∀ e, e ≠ a.1 → calls_of (Call.fsnotify_put_event e) r.2.2 = 0) ∧
      (r.2.1.events a.1).refcnt = (a.2.events a.1).refcnt - 1 ∧
      (∀ e, e ≠ a.1 → r.2.1.events e = a.2.events e)) ∧
    (a.1 ≠ 0 → IS_ERR a.1 = true →
      r.1 = PTR_ERR a.1 ∧
      calls_of (Call.kmem_cache_free_event_priv event_priv) r.2.2 = 1 ∧
      r.2.1.privs event_priv = none ∧
      (∀ e, calls_of (Call.fsnotify_put_event e) r.2.2 = 0) ∧
      r.2.1.events = a.2.events ∧
      r.2.1.destroyed_events = a.2.destroyed_events) ∧
    (m.1 ≠ 0 → IS_ERR m.1 = false →
      (rm.2.1.events m.1).refcnt = (k.events m.1).refcnt) := by
  intro a r m rm
  have h := handle_event_outcomes_aux IS_ERR PTR_ERR add event_priv k group inode_mark event hp
    a.1 a.2 rfl r rfl
  exact ⟨h.1, h.2.1, h.2.2,
    fun h0 he => handle_event_merge_net IS_ERR PTR_ERR event_priv k group inode_mark event hp
      m.1 m.2 rfl h0 he⟩

/-- Witness for claim C7 on the scenario of the specification, with the
error macros of a 64-bit kernel. E3 is delivered to group 10 whose tail is
E1: newly queued, result 0, the attachment is not released. E2, identical to
E1, is delivered: merged, result 0, one release of the attachment and one of
a reference on E1, which keeps the one reference it had. A failing enqueue
primitive: the attachment is released once, no reference is released and its
error code -ENOMEM is the result. -/
theorem handle_event_outcomes_witness :
    ((pnotify_handle_event IS_ERR_64 PTR_ERR_64 fsnotify_add_notify_event 100 kernel_scenario
        10 mark_plain 3).1 = 0 ∧
      calls_of (Call.kmem_cache_free_event_priv 100)
        (pnotify_handle_event IS_ERR_64 PTR_ERR_64 fsnotify_add_notify_event 100
          kernel_scenario 10 mark_plain 3).2.2 = 0) ∧
    ((pnotify_handle_event IS_ERR_64 PTR_ERR_64 fsnotify_add_notify_event 100 kernel_scenario
        10 mark_plain 2).1 = 0 ∧
      calls_of (Call.kmem_cache_free_event_priv 100)
        (pnotify_handle_event IS_ERR_64 PTR_ERR_64 fsnotify_add_notify_event 100
          kernel_scenario 10 mark_plain 2).2.2 = 1) ∧
    ((pnotify_handle_event IS_ERR_64 PTR_ERR_64 add_fails 100 kernel_scenario
        10 mark_plain 2).1 = -ENOMEM ∧
      calls_of (Call.kmem_cache_free_event_priv 100)
        (pnotify_handle_event IS_ERR_64 PTR_ERR_64 add_fails 100
          kernel_scenario 10 mark_plain 2).2.2 = 1) ∧
    ((pnotify_handle_event IS_ERR_64 PTR_ERR_64 fsnotify_add_notify_event 100 kernel_scenario
        10 mark_plain 2).2.1.events 1).refcnt = 1 :=
  have h1 := ((handle_event_outcomes IS_ERR_64 PTR_ERR_64 fsnotify_add_notify_event 100
    kernel_scenario 10 mark_plain 3 (by decide)).1 (by decide))
  have h2 := ((handle_event_outcomes IS_ERR_64 PTR_ERR_64 fsnotify_add_notify_event 100
    kernel_scenario 10 mark_plain 2 (by decide)).2.1 (by decide) (by decide))
  have h3 := ((handle_event_outcomes IS_ERR_64 PTR_ERR_64 add_fails 100
    kernel_scenario 10 mark_plain 2 (by decide)).2.2.1 (by decide) (by decide))
  have h4 := ((handle_event_outcomes IS_ERR_64 PTR_ERR_64 fsnotify_add_notify_event 100
    kernel_scenario 10 mark_plain 2 (by decide)).2.2.2 (by decide) (by decide))
  ⟨⟨h1.1, h1.2.1⟩, ⟨h2.1, h2.2.1⟩, ⟨h3.1.trans (by decide), h3.2.1⟩, h4⟩

/-- Claim C8: when the allocation succeeds, pnotify_handle_event destroys the
watch exactly once if the mask of the watch record carries the one-shot flag
and never otherwise, whatever the enqueue primitive returned (NULL, an event
handle or an error pointer); the destruction is the last call made, after the
submission of the event to the enqueue primitive, which is the first. -/
theorem handle_event_oneshot
    (IS_ERR : Nat → Bool) (PTR_ERR : Nat → Int)
    (add : Kernel → Nat → Nat → Nat → Nat × Kernel)
    (event_priv : Nat) (k : Kernel) (group : Nat) (inode_mark : pnotify_inode_mark)
    (event : Nat) (hp : event_priv ≠ 0) :
    let r := pnotify_handle_event IS_ERR PTR_ERR add event_priv k group inode_mark event
    let a := add (with_priv k event_priv group inode_mark.wd) group event event_priv
    let oneshot := mask_test inode_mark.mask IN_ONESHOT
    (∃ mid, r.2.2 = Call.fsnotify_add_notify_event group event event_priv :: mid ++
        (if oneshot = true then [Call.fsnotify_destroy_mark inode_mark.fsn_mark] else []) ∧
      destroy_calls mid = []) ∧
    destroy_calls r.2.2 =
      (if oneshot = true then [Call.fsnotify_destroy_mark inode_mark.fsn_mark] else []) ∧
    r.2.1.destroyed_marks = a.2.destroyed_marks ++
      (if oneshot = true then [inode_mark.fsn_mark] else []) ∧
    (calls_of (Call.fsnotify_destroy_mark inode_mark.fsn_mark) r.2.2 = 1 ↔ oneshot = true) := by
  intro r a oneshot
  have hr : r = _ := handle_event_core IS_ERR PTR_ERR add event_priv k group inode_mark event hp
    a.1 a.2 rfl
  rw [hr]
  simp only [oneshot]
  by_cases h0 : a.1 = 0
  · by_cases ho : mask_test inode_mark.mask IN_ONESHOT = true
    · exact ⟨⟨[], by simp [h0, ho], rfl⟩, by simp [h0, ho, destroy_calls],
        by simp [h0, ho, fsnotify_destroy_mark], by simp [h0, ho, calls_of]⟩
    · exact ⟨⟨[], by simp [h0, ho], rfl⟩, by simp [h0, ho, destroy_calls],
        by simp [h0, ho], by simp [h0, ho, calls_of]⟩
  · by_cases he : IS_ERR a.1 = false
    · by_cases ho : mask_test inode_mark.mask IN_ONESHOT = true
      · exact ⟨⟨[Call.kmem_cache_free_event_priv event_priv, Call.fsnotify_put_event a.1],
            by simp [h0, he, ho], rfl⟩, by simp [h0, he, ho, destroy_calls],
          by simp [h0, he, ho, fsnotify_destroy_mark, put_event_destroyed_marks,
            pnotify_free_event_priv], by simp [h0, he, ho, calls_of]⟩
      · exact ⟨⟨[Call.kmem_cache_free_event_priv event_priv, Call.fsnotify_put_event a.1],
            by simp [h0, he, ho], rfl⟩, by simp [h0, he, ho, destroy_calls],
          by simp [h0, he, ho, put_event_destroyed_marks, pnotify_free_event_priv],
          by simp [h0, he, ho, calls_of]⟩
    · by_cases ho : mask_test inode_mark.mask IN_ONESHOT = true
      · exact ⟨⟨[Call.kmem_cache_free_event_priv event_priv], by simp [h0, he, ho], rfl⟩,
          by simp [h0, he, ho, destroy_calls],
          by simp [h0, he, ho, fsnotify_destroy_mark, pnotify_free_event_priv],
          by simp [h0, he, ho, calls_of]⟩
      · exact ⟨⟨[Call.kmem_cache_free_event_priv event_priv], by simp [h0, he, ho], rfl⟩,
          by simp [h0, he, ho, destroy_calls], by simp [h0, he, ho, pnotify_free_event_priv],
          by simp [h0, he, ho, calls_of]⟩

/-- Witness for claim C8: on the scenario, a delivery through the one-shot
watch destroys it once, as the last call, when the event is merged, when it
is newly queued and when the enqueue primitive fails; a delivery through the
watch without the flag destroys nothing. -/
theorem handle_event_oneshot_witness :
    destroy_calls (pnotify_handle_event IS_ERR_64 PTR_ERR_64 fsnotify_add_notify_event 100
      kernel_scenario 10 mark_oneshot 2).2.2 = [Call.fsnotify_destroy_mark 50] ∧
    destroy_calls (pnotify_handle_event IS_ERR_64 PTR_ERR_64 fsnotify_add_notify_event 100
      kernel_scenario 10 mark_oneshot 3).2.2 = [Call.fsnotify_destroy_mark 50] ∧
    destroy_calls (pnotify_handle_event IS_ERR_64 PTR_ERR_64 add_fails 100
      kernel_scenario 10 mark_oneshot 2).2.2 = [Call.fsnotify_destroy_mark 50] ∧
    destroy_calls (pnotify_handle_event IS_ERR_64 PTR_ERR_64 fsnotify_add_notify_event 100
      kernel_scenario 10 mark_plain 2).2.2 = [] :=
  ⟨(handle_event_oneshot IS_ERR_64 PTR_ERR_64 fsnotify_add_notify_event 100 kernel_scenario 10
      mark_oneshot 2 (by decide)).2.1,
    (handle_event_oneshot IS_ERR_64 PTR_ERR_64 fsnotify_add_notify_event 100 kernel_scenario 10
      mark_oneshot 3 (by decide)).2.1,
    (handle_event_oneshot IS_ERR_64 PTR_ERR_64 add_fails 100 kernel_scenario 10
      mark_oneshot 2 (by decide)).2.1,
    (handle_event_oneshot IS_ERR_64 PTR_ERR_64 fsnotify_add_notify_event 100 kernel_scenario 10
      mark_plain 2 (by decide)).2.1⟩

/-! ## Group teardown -/

theorem move_to_local_eq (l loc : List pnotify_wd_pid_struct) :
    move_to_local l loc = ([], loc ++ l) := by
  induction l generalizing loc with
  | nil => simp [move_to_local]
  | cons pos rest ih => simp [move_to_local, ih]

theorem free_local_eq (lock : Bool) (l : List pnotify_wd_pid_struct) (g : Globals) :
    free_local lock l g =
      ([], { g with freed := g.freed ++ l.map (fun e => (e, lock)) }) := by
  induction l generalizing g with
  | nil => simp [free_local]
  | cons pos rest ih => simp [free_local, ih]

theorem for_each_warned (data : Nat) (entries : List (Int × Nat)) (g : Globals)
    (h : g.warned = true) : idr_for_each idr_callback data entries g = (0, g) := by
  induction entries with
  | nil => rfl
  | cons e rest ih =>
    obtain ⟨id, p⟩ := e
    simp [idr_for_each, idr_callback, h, ih]

theorem callback_fresh (id : Int) (p data : Nat) (g : Globals) (h : g.warned = false) :
    idr_callback id p data g =
      (0, { g with warned := true, klog := g.klog ++ leak_lines g id p data }) := by
  unfold idr_callback leak_lines
  by_cases hp : p = 0
  · simp [h, hp]
  · simp [h, hp]

theorem for_each_fresh (data : Nat) (id : Int) (p : Nat) (rest : List (Int × Nat))
    (g : Globals) (h : g.warned = false) :
    idr_for_each idr_callback data ((id, p) :: rest) g =
      (0, { g with warned := true, klog := g.klog ++ leak_lines g id p data }) := by
  simp only [idr_for_each, callback_fresh id p data g h]
  simp [for_each_warned]

theorem for_each_freed (data : Nat) (entries : List (Int × Nat)) (g : Globals) :
    (idr_for_each idr_callback data entries g).2.freed = g.freed := by
  cases hw : g.warned with
  | true => rw [for_each_warned _ _ _ hw]
  | false =>
    cases entries with
    | nil => rfl
    | cons e rest =>
      obtain ⟨id, p⟩ := e
      rw [for_each_fresh _ _ _ _ _ hw]

theorem leak_warnings_lines (klog : List LogLine) (g : Globals) (id : Int) (p data : Nat) :
    leak_warnings (klog ++ leak_lines g id p data) = leak_warnings klog + 1 := by
  unfold leak_warnings leak_lines
  by_cases hp : p = 0
  · simp [hp, List.filter_append]
  · simp [hp, List.filter_append, List.filter_cons]

theorem free_group_priv_klog (g : Globals) (group : fsnotify_group) :
    (pnotify_free_group_priv g group).g.klog =
      (idr_for_each idr_callback group.addr group.idr g).2.klog := by
  simp [pnotify_free_group_priv, pnotify_free_group_priv_unlocked,
    pnotify_free_group_priv_locked, free_local_eq]

theorem free_group_priv_warned (g : Globals) (group : fsnotify_group) :
    (pnotify_free_group_priv g group).g.warned =
      (idr_for_each idr_callback group.addr group.idr g).2.warned := by
  simp [pnotify_free_group_priv, pnotify_free_group_priv_unlocked,
    pnotify_free_group_priv_locked, free_local_eq]

theorem close_groups_warned (groups : List fsnotify_group) :
    ∀ g : Globals, g.warned = true →
      (close_groups g groups).1.klog = g.klog ∧ (close_groups g groups).1.warned = true := by
  induction groups with
  | nil => intro g h; exact ⟨rfl, h⟩
  | cons group rest ih =>
    intro g h
    have hk := free_group_priv_klog g group
    have hw := free_group_priv_warned g group
    rw [for_each_warned _ _ _ h] at hk hw
    have := ih (pnotify_free_group_priv g group).g (by rw [hw]; exact h)
    simp only [close_groups]
    exact ⟨by rw [this.1, hk], this.2⟩

theorem close_groups_fresh (groups : List fsnotify_group) :
    ∀ g : Globals, g.warned = false →
      leak_warnings (close_groups g groups).1.klog ≤ leak_warnings g.klog + 1 := by
  induction groups with
  | nil => intro g _; simp [close_groups]
  | cons group rest ih =>
    intro g h
    have hk := free_group_priv_klog g group
    have hw := free_group_priv_warned g group
    simp only [close_groups]
    cases hidr : group.idr with
    | nil =>
      rw [hidr] at hk hw
      simp only [idr_for_each] at hk hw
      have := ih (pnotify_free_group_priv g group).g (by rw [hw]; exact h)
      rw [hk] at this
      exact this
    | cons e more =>
      obtain ⟨id, p⟩ := e
      rw [hidr, for_each_fresh _ _ _ _ _ h] at hk hw
      have := (close_groups_warned rest (pnotify_free_group_priv g group).g hw).1
      rw [this, hk, leak_warnings_lines]

/-- Claim C9: pnotify_free_group_priv emits no leak warning when the watch
registry is empty; when the registry holds one or more entries and the
warning has not fired before, it emits exactly one leak warning, for the
first entry (followed by the diagnostic line for a non-null mark), however
many entries there are, and sets the flag; once the flag is set a close emits
none, also on a non-empty registry, so over any sequence of group closes at
most one leak warning is added. In every case teardown completes: the
registry is cleared and destroyed, the side list and the local list are
empty and the side-list lock is released. -/
theorem free_group_priv_leak_warning (g : Globals) (group : fsnotify_group) :
    (group.idr = [] →
      (pnotify_free_group_priv g group).g.klog = g.klog ∧
      (pnotify_free_group_priv g group).g.warned = g.warned) ∧
    (∀ id p rest, group.idr = (id, p) :: rest → g.warned = false →
      (pnotify_free_group_priv g group).g.klog = g.klog ++ leak_lines g id p group.addr ∧
      leak_warnings (pnotify_free_group_priv g group).g.klog = leak_warnings g.klog + 1 ∧
      (pnotify_free_group_priv g group).g.warned = true) ∧
    (g.warned = true →
      (pnotify_free_group_priv g group).g.klog = g.klog ∧
      (pnotify_free_group_priv g group).g.warned = true) ∧
    (∀ groups : List fsnotify_group, g.warned = false →
      leak_warnings (close_groups g groups).1.klog ≤ leak_warnings g.klog + 1) ∧
    (∀ groups : List fsnotify_group, g.warned = true →
      (close_groups g groups).1.klog = g.klog) ∧
    ((pnotify_free_group_priv g group).group.idr = [] ∧
      (pnotify_free_group_priv g group).group.idr_destroyed = true ∧
      (pnotify_free_group_priv g group).group.wd_pid_list = [] ∧
      (pnotify_free_group_priv g group).local_list = [] ∧
      (pnotify_free_group_priv g group).group.wd_pid_lock = false) := by
  have hk := free_group_priv_klog g group
  have hw := free_group_priv_warned g group
  refine ⟨?_, ?_, ?_, ?_, ?_, ?_⟩
  · intro h
    rw [h] at hk hw
    exact ⟨hk, hw⟩
  · intro id p rest h hf
    rw [h, for_each_fresh _ _ _ _ _ hf] at hk hw
    exact ⟨hk, by rw [hk, leak_warnings_lines], hw⟩
  · intro h
    rw [for_each_warned _ _ _ h] at hk hw
    exact ⟨hk, by rw [hw]; exact h⟩
  · exact fun groups h => close_groups_fresh groups g h
  · exact fun groups h => (close_groups_warned groups g h).1
  · simp [pnotify_free_group_priv, pnotify_free_group_priv_unlocked,
      pnotify_free_group_priv_locked, free_local_eq, move_to_local_eq]

/-- Witness for claim C9: a group closed with three registry entries in a
fresh process logs one leak warning, a group closed with an empty registry
logs nothing, a second leaky close after the first logs nothing more, and
three closes in a row log one warning in total. -/
theorem free_group_priv_leak_warning_witness :
    leak_warnings (pnotify_free_group_priv globals_fresh group_leaky).g.klog = 1 ∧
    (pnotify_free_group_priv globals_fresh group_clean).g.klog = [] ∧
    (pnotify_free_group_priv (pnotify_free_group_priv globals_fresh group_leaky).g
      group_leaky).g.klog = (pnotify_free_group_priv globals_fresh group_leaky).g.klog ∧
    leak_warnings (close_groups globals_fresh [group_leaky, group_clean, group_leaky]).1.klog
      ≤ 1 ∧
    (close_groups (pnotify_free_group_priv globals_fresh group_leaky).g
      [group_leaky, group_leaky]).1.klog =
      (pnotify_free_group_priv globals_fresh group_leaky).g.klog :=
  have hw : (pnotify_free_group_priv globals_fresh group_leaky).g.warned = true :=
    ((free_group_priv_leak_warning globals_fresh group_leaky).2.1 1 50 [(2, 51), (3, 52)]
      rfl rfl).2.2
  ⟨((free_group_priv_leak_warning globals_fresh group_leaky).2.1 1 50 [(2, 51), (3, 52)]
      rfl rfl).2.1,
    ((free_group_priv_leak_warning globals_fresh group_clean).1 rfl).1,
    ((free_group_priv_leak_warning (pnotify_free_group_priv globals_fresh group_leaky).g
      group_leaky).2.2.1 hw).1,
    (free_group_priv_leak_warning globals_fresh group_leaky).2.2.2.1
      [group_leaky, group_clean, group_leaky] rfl,
    (free_group_priv_leak_warning (pnotify_free_group_priv globals_fresh group_leaky).g
      group_leaky).2.2.2.2.1 [group_leaky, group_leaky] hw⟩

/-- Claim C10: pnotify_free_group_priv takes the side-list lock and, with the
lock held, moves every entry of the side list to the local list in the
original order, leaving the shared list empty and freeing nothing; after the
lock is released it frees the entries of the local list, each once, in
order, every free being made with the lock not held, and the local list is
empty at the end. -/
theorem free_group_priv_side_list (g : Globals) (group : fsnotify_group) :
    ((pnotify_free_group_priv_locked g group).group.wd_pid_lock = true ∧
      (pnotify_free_group_priv_locked g group).local_list = group.wd_pid_list ∧
      (pnotify_free_group_priv_locked g group).group.wd_pid_list = [] ∧
      (pnotify_free_group_priv_locked g group).g.freed = g.freed) ∧
    ((pnotify_free_group_priv g group).g.freed =
        g.freed ++ group.wd_pid_list.map (fun e => (e, false)) ∧
      (∀ e, List.count (e, false) (pnotify_free_group_priv g group).g.freed =
        List.count (e, false) g.freed + List.count e group.wd_pid_list) ∧
      (∀ e, List.count (e, true) (pnotify_free_group_priv g group).g.freed =
        List.count (e, true) g.freed) ∧
      (pnotify_free_group_priv g group).local_list = [] ∧
      (pnotify_free_group_priv g group).group.wd_pid_list = [] ∧
      (pnotify_free_group_priv g group).group.wd_pid_lock = false) := by
  have hf : (pnotify_free_group_priv g group).g.freed =
      g.freed ++ group.wd_pid_list.map (fun e => (e, false)) := by
    simp [pnotify_free_group_priv, pnotify_free_group_priv_unlocked,
      pnotify_free_group_priv_locked, free_local_eq, move_to_local_eq, for_each_freed]
  refine ⟨?_, hf, ?_, ?_, ?_⟩
  · simp [pnotify_free_group_priv_locked, move_to_local_eq, for_each_freed]
  · intro e
    rw [hf, List.count_append]
    congr 1
    induction group.wd_pid_list with
    | nil => rfl
    | cons x xs ih =>
      simp only [List.map_cons, List.count_cons, ih]
      by_cases hx : x = e
      · simp [hx]
      · simp [hx]
  · intro e
    rw [hf, List.count_append]
    have : List.count (e, true) (group.wd_pid_list.map (fun e => (e, false))) = 0 := by
      rw [List.count_eq_zero]
      simp
    rw [this]
    rfl
  · simp [pnotify_free_group_priv, pnotify_free_group_priv_unlocked,
      pnotify_free_group_priv_locked, free_local_eq, move_to_local_eq]

end Pnotify
